import Mathlib

/-!
Verification development for the mfb-ingest night-flight-time calculator
(`src/server.js`).  The JavaScript core (OFP text extraction, great-circle
interpolation, NOAA solar altitude, night-minute sampling, landing day/night
classification and logbook-value derivation) is embedded shallowly below:
pure JS functions become Lean functions, JS numbers become `ℚ` where the code
only does exact decimal arithmetic and comparisons, and `ℝ` where it does
trigonometry; `null`/absent become `Option`.  JS `Date` values are embedded
as integer milliseconds since the Unix epoch (UTC), which is exactly what
`Date.prototype.getTime` exposes for the valid dates the program builds.
-/

namespace MfbIngest

/-! ## JS primitives -/

/-- JS `Math.round`: round half toward +∞ (for all finite inputs
`Math.round x = ⌊x + 0.5⌋`, up to the `-0` artifact which `ℚ` lacks). -/
def jsRound (q : ℚ) : ℤ := ⌊q + 1/2⌋

/-- JS truthiness of a nullable string: `null` and `""` are falsy. -/
def jsT : Option String → Bool
  | none => false
  | some s => s ≠ ""

/-- JS truthiness of a nullable number: `null` and `0` are falsy
(`NaN` never arises on the paths embedded here). -/
def jsNumT : Option ℚ → Bool
  | none => false
  | some q => q ≠ 0

/-- JS `a || b` on nullable strings: keep `a` when it is truthy. -/
def jsOrStr (a b : Option String) : Option String :=
  match a with
  | some s => if s = "" then b else some s
  | none => b

/-! ## UTC date/time embedding

`makeUtcDate` in the source builds `new Date("YYYY-MM-DDThh:mm:00Z")`.
A conforming engine yields `NaN` (an Invalid Date) when the components are
out of range, else the epoch milliseconds; we embed this as `Option ℤ`.
Civil-date arithmetic uses the standard days-from-civil algorithm. -/

/-- Days from the Unix epoch to civil date `y-m-d` (proleptic Gregorian). -/
def daysFromCivil (y : ℤ) (m d : ℤ) : ℤ :=
  let y' := if m ≤ 2 then y - 1 else y
  let era := y' / 400
  let yoe := y' - era * 400
  let doy := (153 * (m + (if 2 < m then -3 else 9)) + 2) / 5 + d - 1
  let doe := yoe * 365 + yoe / 4 - yoe / 100 + doy
  era * 146097 + doe - 719468

/-- Whether `y` is a Gregorian leap year. -/
def isLeapYear (y : ℤ) : Bool := y % 4 = 0 ∧ (y % 100 ≠ 0 ∨ y % 400 = 0)

/-- Number of days in month `m` of year `y`. -/
def daysInMonth (y m : ℤ) : ℤ :=
  if m = 2 then (if isLeapYear y then 29 else 28)
  else if m = 4 ∨ m = 6 ∨ m = 9 ∨ m = 11 then 30
  else 31

def isDig (c : Char) : Bool := 48 ≤ c.toNat ∧ c.toNat ≤ 57

/-- Numeric value of a decimal digit character. -/
def dval (c : Char) : ℕ := c.toNat - 48

/-- Parse a strict `YYYY-MM-DD` string into `(year, month, day)`. -/
def parseIsoDate (s : String) : Option (ℤ × ℤ × ℤ) :=
  match s.toList with
  | [a, b, c, d, '-', e, f, '-', g, h] =>
    if isDig a ∧ isDig b ∧ isDig c ∧ isDig d ∧ isDig e ∧ isDig f ∧ isDig g ∧ isDig h then
      some (((dval a * 1000 + dval b * 100 + dval c * 10 + dval d : ℕ) : ℤ),
            ((dval e * 10 + dval f : ℕ) : ℤ),
            ((dval g * 10 + dval h : ℕ) : ℤ))
    else none
  | _ => none

/-- Clock time extracted from the OFP text: `{hh, mm}` in the source. -/
structure HHMM where
  hh : ℕ
  mm : ℕ
deriving DecidableEq, Repr

/-- Source `makeUtcDate(isoDate, hhmm)`: epoch ms of
`new Date(isoDate + "T" + hh + ":" + mm + ":00Z")`; `none` is JS Invalid
Date (month/day out of range, or hour not in the ES date-time grammar —
hours `00`–`23`, or `24:00`). -/
def makeUtcDate (isoDate : String) (t : HHMM) : Option ℤ :=
  match parseIsoDate isoDate with
  | none => none
  | some (y, m, d) =>
    if 1 ≤ m ∧ m ≤ 12 ∧ 1 ≤ d ∧ d ≤ daysInMonth y m ∧
        ((t.hh ≤ 23 ∧ t.mm ≤ 59) ∨ (t.hh = 24 ∧ t.mm = 0)) then
      some (daysFromCivil y m d * 86400000 + (t.hh : ℤ) * 3600000 + (t.mm : ℤ) * 60000)
    else none

/-- JS `Date.prototype.getUTCHours` on epoch milliseconds. -/
def getUTCHours (t : ℤ) : ℤ := t / 3600000 % 24

/-- JS `Date.prototype.getUTCMinutes` on epoch milliseconds. -/
def getUTCMinutes (t : ℤ) : ℤ := t / 60000 % 60

/-- JS `Date.prototype.getUTCSeconds` on epoch milliseconds. -/
def getUTCSeconds (t : ℤ) : ℤ := t / 1000 % 60

/-- The minute-of-day expression `t.getUTCHours() * 60 + t.getUTCMinutes()`
the source computes in `diffMinutesWithMidnightWrap` and
`computeLandingDayNight`. -/
def minuteOfDayUTC (t : ℤ) : ℤ := getUTCHours t * 60 + getUTCMinutes t

/-- Source `diffMinutesWithMidnightWrap(t1, t2)`. -/
def diffMinutesWithMidnightWrap (t1 t2 : ℤ) : ℤ :=
  let m1 := minuteOfDayUTC t1
  let m2 := minuteOfDayUTC t2
  let d := m2 - m1
  if d < 0 then d + 1440 else d

/-- C1: for all instants, the block duration equals
`(IN − OUT) mod 1440` on minute-of-day values and is never negative; for
parsed OUT=2350 and IN=0010 on one nominal date it is 20 minutes. -/
theorem C1_block_duration_mod1440 :
    (∀ t1 t2 : ℤ,
      0 ≤ diffMinutesWithMidnightWrap t1 t2 ∧
      diffMinutesWithMidnightWrap t1 t2 =
        (minuteOfDayUTC t2 - minuteOfDayUTC t1) % 1440) ∧
    (∀ t1 t2 : ℤ,
      makeUtcDate "1970-01-01" ⟨23, 50⟩ = some t1 →
      makeUtcDate "1970-01-01" ⟨0, 10⟩ = some t2 →
      diffMinutesWithMidnightWrap t1 t2 = 20) := by
  constructor
  · intro t1 t2
    simp only [diffMinutesWithMidnightWrap, minuteOfDayUTC, getUTCHours, getUTCMinutes]
    omega
  · intro t1 t2 h1 h2
    have e1 : t1 = 85800000 := by
      have : makeUtcDate "1970-01-01" ⟨23, 50⟩ = some 85800000 := by decide
      rw [this] at h1; exact (Option.some.inj h1).symm
    have e2 : t2 = 600000 := by
      have : makeUtcDate "1970-01-01" ⟨0, 10⟩ = some 600000 := by decide
      rw [this] at h2; exact (Option.some.inj h2).symm
    subst e1 e2
    decide

/-- C1 witness: the midnight-wrap instance evaluated at the concrete
instants built from OUT=2350 and IN=0010. -/
theorem C1_block_duration_mod1440_witness :
    makeUtcDate "1970-01-01" ⟨23, 50⟩ = some 85800000 ∧
    makeUtcDate "1970-01-01" ⟨0, 10⟩ = some 600000 ∧
    diffMinutesWithMidnightWrap 85800000 600000 = 20 :=
  ⟨by decide, by decide,
    C1_block_duration_mod1440.2 85800000 600000 (by decide) (by decide)⟩

/-! ## Regex scanning

The extractor uses `String.prototype.match` with non-global regexes: the
engine tries each start position left to right and returns the first match.
Each pattern below is embedded as a deterministic scanner with the local
greedy-then-backtrack behavior of the corresponding regex spelled out. -/

/-- JS `\w`: `[A-Za-z0-9_]`. -/
def isWordChar (c : Char) : Bool := c.isAlpha ∨ c.isDigit ∨ c = '_'

def headIsWord : List Char → Bool
  | [] => false
  | c :: _ => isWordChar c

def prevIsWord : Option Char → Bool
  | none => false
  | some c => isWordChar c

/-- JS `\b` at the position between `prev` and the head of `s`. -/
def atBoundary (prev : Option Char) (s : List Char) : Bool :=
  prevIsWord prev != headIsWord s

/-- JS `\b` immediately after a word character (digits and letters here). -/
def wbAfterWord (rest : List Char) : Bool := !(headIsWord rest)

/-- JS `\s` (ASCII part; the OFP inputs are ASCII). -/
def isJsSpace (c : Char) : Bool :=
  c = ' ' ∨ c = '\t' ∨ c = '\n' ∨ c = '\r' ∨ c = Char.ofNat 11 ∨ c = Char.ofNat 12

/-- Separator class `[:\s]` used after the BLOCK/CAPTAIN/FO/DATE markers. -/
def isSepChar (c : Char) : Bool := c = ':' ∨ isJsSpace c

def inRangeC (lo hi c : Char) : Bool := lo.toNat ≤ c.toNat ∧ c.toNat ≤ hi.toNat

def isUpperAZ (c : Char) : Bool := inRangeC 'A' 'Z' c

/-- Match a literal character sequence, case-sensitively. -/
def matchLit : List Char → List Char → Option (List Char)
  | [], s => some s
  | _, [] => none
  | l :: ls, c :: cs => if c = l then matchLit ls cs else none

/-- Match a literal character sequence under the `i` flag. -/
def matchLitCI : List Char → List Char → Option (List Char)
  | [], s => some s
  | _, [] => none
  | l :: ls, c :: cs => if c.toLower = l.toLower then matchLitCI ls cs else none

/-- Try a pattern at every start position, first match wins (the scan the
JS regex engine performs for a non-global, non-anchored regex). -/
def scanFrom (tryAt : Option Char → List Char → Option α) :
    Option Char → List Char → Option α
  | prev, [] => tryAt prev []
  | prev, c :: rest => (tryAt prev (c :: rest)) <|> scanFrom tryAt (some c) rest

/-! ### `parseZuluHHMM`: `\bLABEL\s+([0-2]\d)([0-5]\d)Z?\b` with flag `i` -/

/-- The `Z?\b` tail: greedily take `Z` if the boundary then holds, else
fall back to no `Z` (after a digit the boundary needs a non-word char). -/
def zuluTailOk (rest : List Char) : Bool :=
  (match rest with
   | c :: r2 => (c = 'Z' || c = 'z') && wbAfterWord r2
   | [] => false) || wbAfterWord rest

def tryZuluAt (label : List Char) (prev : Option Char) (s : List Char) :
    Option HHMM :=
  if atBoundary prev s then
    match matchLitCI label s with
    | none => none
    | some s1 =>
      if (s1.span isJsSpace).1.isEmpty then none
      else
        match (s1.span isJsSpace).2 with
        | h1 :: h2 :: m1 :: m2 :: rest =>
          if inRangeC '0' '2' h1 && isDig h2 && inRangeC '0' '5' m1 && isDig m2 then
            if zuluTailOk rest then
              some ⟨dval h1 * 10 + dval h2, dval m1 * 10 + dval m2⟩
            else none
          else none
        | _ => none
  else none

/-- Source `parseZuluHHMM(text, label)`. -/
def parseZuluHHMM (text label : String) : Option HHMM :=
  scanFrom (tryZuluAt label.toList) none text.toList

/-! ### Flight number: `\bCJT\d{3,4}\b` (full match kept) -/

def tryFlightNumberAt (prev : Option Char) (s : List Char) : Option (List Char) :=
  if atBoundary prev s then
    match matchLit ['C', 'J', 'T'] s with
    | none => none
    | some s1 =>
      match s1 with
      | d1 :: d2 :: d3 :: rest =>
        if isDig d1 && isDig d2 && isDig d3 then
          -- greedy `{3,4}`: try the 4th digit first, then backtrack
          (match rest with
           | d4 :: r2 =>
             if isDig d4 && wbAfterWord r2 then
               some (['C', 'J', 'T', d1, d2, d3, d4])
             else none
           | [] => none) <|>
          (if wbAfterWord rest then some ['C', 'J', 'T', d1, d2, d3] else none)
        else none
      | _ => none
  else none

/-! ### Date token, two alternatives -/

/-- First form: `\bDATE[:\s]*([0-3]\d[A-Z]{3}\d{2})\b` (capture kept). -/
def tryDate1At (prev : Option Char) (s : List Char) : Option (List Char) :=
  if atBoundary prev s then
    match matchLit ['D', 'A', 'T', 'E'] s with
    | none => none
    | some s1 =>
      let sp := s1.span isSepChar
      match sp.2 with
      | a :: b :: c :: d :: e :: f :: g :: rest =>
        if inRangeC '0' '3' a && isDig b && isUpperAZ c && isUpperAZ d &&
            isUpperAZ e && isDig f && isDig g && wbAfterWord rest then
          some [a, b, c, d, e, f, g]
        else none
      | _ => none
  else none

/-- Second form: `\b(\d{2}[A-Z]{3}\d{2})\/\d{2}\.\d{2}Z\b` (capture kept). -/
def tryDate2At (prev : Option Char) (s : List Char) : Option (List Char) :=
  if atBoundary prev s then
    match s with
    | a :: b :: c :: d :: e :: f :: g :: '/' :: h1 :: h2 :: '.' :: m1 :: m2 :: 'Z' :: rest =>
      if isDig a && isDig b && isUpperAZ c && isUpperAZ d && isUpperAZ e &&
          isDig f && isDig g && isDig h1 && isDig h2 && isDig m1 && isDig m2 &&
          wbAfterWord rest then
        some [a, b, c, d, e, f, g]
      else none
    | _ => none
  else none

/-! ### ORIG/DEST: `\bMARKER\s+([A-Z]{4})\b` -/

def tryMarkerIcaoAt (marker : List Char) (prev : Option Char) (s : List Char) :
    Option (List Char) :=
  if atBoundary prev s then
    match matchLit marker s with
    | none => none
    | some s1 =>
      let sp := s1.span isJsSpace
      if sp.1.isEmpty then none
      else
        match sp.2 with
        | a :: b :: c :: d :: rest =>
          if isUpperAZ a && isUpperAZ b && isUpperAZ c && isUpperAZ d &&
              wbAfterWord rest then
            some [a, b, c, d]
          else none
        | _ => none
  else none

/-! ### Tail number: `\bC-[A-Z]{4}\b` (full match kept) -/

def tryTailAt (prev : Option Char) (s : List Char) : Option (List Char) :=
  if atBoundary prev s then
    match s with
    | 'C' :: '-' :: a :: b :: c :: d :: rest =>
      if isUpperAZ a && isUpperAZ b && isUpperAZ c && isUpperAZ d &&
          wbAfterWord rest then
        some ['C', '-', a, b, c, d]
      else none
    | _ => none
  else none

/-! ### Block time, two alternatives (flag `i`) -/

/-- The `(?:\.\d)?\b` tail of `\bBLOCK[:\s]+(\d{1,2}(?:\.\d)?)\b`: greedy
fraction first, then the fraction-less backtrack. -/
def blockFrac (ds rest : List Char) : Option (List Char) :=
  (match rest with
   | '.' :: f :: r2 =>
     if isDig f && wbAfterWord r2 then some (ds ++ ['.', f]) else none
   | _ => none) <|>
  (if wbAfterWord rest then some ds else none)

/-- Greedy `\d{1,2}` (two digits first, backtrack to one), then the tail. -/
def blockDigits : List Char → Option (List Char)
  | d1 :: rest =>
    if isDig d1 then
      (match rest with
       | d2 :: r2 =>
         if isDig d2 then blockFrac [d1, d2] r2 <|> blockFrac [d1] (d2 :: r2)
         else blockFrac [d1] rest
       | [] => blockFrac [d1] [])
    else none
  | [] => none

def tryBlock1At (prev : Option Char) (s : List Char) : Option (List Char) :=
  if atBoundary prev s then
    match matchLitCI ['B', 'L', 'O', 'C', 'K'] s with
    | none => none
    | some s1 =>
      let sp := s1.span isSepChar
      if sp.1.isEmpty then none else blockDigits sp.2
  else none

/-- The mandatory fraction `\.\d\b` of `\bBLOCK\s+(\d{1,2}\.\d)\b`. -/
def mandFrac (ds rest : List Char) : Option (List Char) :=
  match rest with
  | '.' :: f :: r2 =>
    if isDig f && wbAfterWord r2 then some (ds ++ ['.', f]) else none
  | _ => none

def block2Digits : List Char → Option (List Char)
  | d1 :: rest =>
    if isDig d1 then
      (match rest with
       | d2 :: r2 =>
         if isDig d2 then mandFrac [d1, d2] r2 <|> mandFrac [d1] (d2 :: r2)
         else mandFrac [d1] rest
       | [] => none)
    else none
  | [] => none

def tryBlock2At (prev : Option Char) (s : List Char) : Option (List Char) :=
  if atBoundary prev s then
    match matchLitCI ['B', 'L', 'O', 'C', 'K'] s with
    | none => none
    | some s1 =>
      let sp := s1.span isJsSpace
      if sp.1.isEmpty then none else block2Digits sp.2
  else none

/-! ### Captain / FO: `\bMARKER[:\s]+([A-Z][A-Z\s'-]{2,})\b` -/

/-- The run class `[A-Z\s'-]`. -/
def isNameChar (c : Char) : Bool :=
  isUpperAZ c ∨ isJsSpace c ∨ c = Char.ofNat 39 ∨ c = '-'

/-- Greedy `{2,}` with backtracking: the run is examined from its longest
prefix downwards (represented reversed) until `\b` holds after it; runs of
length below 2 are rejected. -/
def nameShrinkRev (c : Char) : List Char → List Char → Option (List Char)
  | [], _ => none
  | [_], _ => none
  | last :: revRest, rest =>
    if isWordChar last != headIsWord rest then some (c :: (last :: revRest).reverse)
    else nameShrinkRev c revRest (last :: rest)

def tryNameAt (marker : List Char) (prev : Option Char) (s : List Char) :
    Option (List Char) :=
  if atBoundary prev s then
    match matchLit marker s with
    | none => none
    | some s1 =>
      let sp := s1.span isSepChar
      if sp.1.isEmpty then none
      else
        match sp.2 with
        | c :: s3 =>
          if isUpperAZ c then
            let run := s3.span isNameChar
            nameShrinkRev c run.1.reverse run.2
          else none
        | [] => none
  else none

/-! ### `toTitleCase` -/

def trimJs (s : List Char) : List Char :=
  ((s.dropWhile isJsSpace).reverse.dropWhile isJsSpace).reverse

/-- The `replace(/\b([a-z])/g, upper)` pass: a lowercase letter is
uppercased exactly when no word character precedes it. -/
def titleCaseGo : Option Char → List Char → List Char
  | _, [] => []
  | prev, c :: rest =>
    (if !(prevIsWord prev) && c.isLower then c.toUpper else c) ::
      titleCaseGo (some c) rest

/-- Source `toTitleCase(name)`. -/
def toTitleCase (s : String) : String :=
  String.mk (titleCaseGo none ((trimJs s.toList).map Char.toLower))

/-! ## `parseOFP` -/

/-- The four optional clock times; the source object is
`{ out, in, off, on }` (`in`/`on` are reserved words here, spelled
`inn`/`onn`). -/
structure ParsedTimes where
  out : Option HHMM
  inn : Option HHMM
  off : Option HHMM
  onn : Option HHMM
deriving DecidableEq, Repr

/-- The record `parseOFP` returns (the FlightFact of the spec). -/
structure Parsed where
  flightNumber : Option String
  isoDate : Option String
  orig : Option String
  dest : Option String
  route : Option String
  tail : Option String
  block : Option ℚ
  captain : Option String
  fo : Option String
  times : ParsedTimes
  comments : String
deriving DecidableEq, Repr

/-- JS `Number(s)` for the block captures `\d{1,2}(\.\d)?`. -/
def numOfDigits (cs : List Char) : ℚ :=
  cs.foldl (fun acc c => acc * 10 + (dval c : ℚ)) 0

def numOf (s : String) : ℚ :=
  let sp := s.toList.span isDig
  match sp.2 with
  | '.' :: fs => numOfDigits sp.1 + numOfDigits fs / (10 ^ fs.length : ℚ)
  | _ => numOfDigits sp.1

/-- Month-abbreviation table of `parseOFP`. -/
def monthNum (mon : String) : Option String :=
  if mon = "JAN" then some "01" else if mon = "FEB" then some "02"
  else if mon = "MAR" then some "03" else if mon = "APR" then some "04"
  else if mon = "MAY" then some "05" else if mon = "JUN" then some "06"
  else if mon = "JUL" then some "07" else if mon = "AUG" then some "08"
  else if mon = "SEP" then some "09" else if mon = "OCT" then some "10"
  else if mon = "NOV" then some "11" else if mon = "DEC" then some "12"
  else none

/-- The `text` the extractor scans: `String(raw || "").replace(/\r/g, "\n")`. -/
def normText (raw : String) : List Char :=
  raw.toList.map fun c => if c = '\r' then '\n' else c

/-- The block capture: first regex form, `||`-chained with the second
(`left capture wins when truthy`, i.e. non-null and non-empty). -/
def blockCapture (raw : String) : Option String :=
  let cs := normText raw
  jsOrStr ((scanFrom tryBlock1At none cs).map String.mk)
    ((scanFrom tryBlock2At none cs).map String.mk)

/-- The `block = block ? Number(block) : null` step applied to the capture. -/
def parsedBlock (raw : String) : Option ℚ :=
  match blockCapture raw with
  | none => none
  | some s => if s = "" then none else some (numOf s)

/-- Source `parseOFP(raw)`. -/
def parseOFP (raw : String) : Parsed :=
  let cs := normText raw
  let text := String.mk cs
  let flightNumber := (scanFrom tryFlightNumberAt none cs).map String.mk
  let dateToken := jsOrStr ((scanFrom tryDate1At none cs).map String.mk)
    ((scanFrom tryDate2At none cs).map String.mk)
  let orig := (scanFrom (tryMarkerIcaoAt ['O', 'R', 'I', 'G']) none cs).map String.mk
  let dest := (scanFrom (tryMarkerIcaoAt ['D', 'E', 'S', 'T']) none cs).map String.mk
  let tail := (scanFrom tryTailAt none cs).map String.mk
  let block : Option ℚ := parsedBlock raw
  let captainRaw := (scanFrom (tryNameAt ['C', 'A', 'P', 'T', 'A', 'I', 'N']) none cs).map String.mk
  let foRaw := (scanFrom (tryNameAt ['F', 'O']) none cs).map String.mk
  let captain :=
    match captainRaw with
    | some s => if s = "" then none else some (toTitleCase s)
    | none => none
  let fo :=
    match foRaw with
    | some s => if s = "" then none else some (toTitleCase s)
    | none => none
  let outT := parseZuluHHMM text "OUT"
  let inT := parseZuluHHMM text "IN"
  let offT := parseZuluHHMM text "OFF"
  let onT := parseZuluHHMM text "ON"
  let isoDate : Option String :=
    match dateToken with
    | none => none
    | some tok =>
      let dd := String.mk (tok.toList.take 2)
      let mon := String.mk ((tok.toList.drop 2).take 3)
      let yy := String.mk ((tok.toList.drop 5).take 2)
      match monthNum mon with
      | some mm => some ("20" ++ yy ++ "-" ++ mm ++ "-" ++ dd)
      | none => none
  let route : Option String :=
    match orig, dest with
    | some og, some ds => if og = "" ∨ ds = "" then none else some (og ++ " " ++ ds)
    | _, _ => none
  let commentsParts : List String :=
    (match flightNumber with
     | some fn => if fn = "" then [] else [fn]
     | none => []) ++
    (match orig, dest with
     | some og, some ds => if og = "" ∨ ds = "" then [] else [og ++ "-" ++ ds]
     | _, _ => [])
  { flightNumber := flightNumber, isoDate := isoDate, orig := orig, dest := dest,
    route := route, tail := tail, block := block, captain := captain, fo := fo,
    times := ⟨outT, inT, offT, onT⟩,
    comments := String.intercalate " " commentsParts }

/-! ## Celestial geometry engine

The trigonometric parts operate on `ℝ`; the JS floats are embedded as real
numbers (the spec requires matching the published approximation to within
numerical tolerance, not bit-exactness). -/

/-- Source `clamp(x, a, b) = Math.max(a, Math.min(b, x))`. -/
noncomputable def clamp (x a b : ℝ) : ℝ := max a (min b x)

noncomputable def deg2rad (d : ℝ) : ℝ := d * Real.pi / 180

noncomputable def rad2deg (r : ℝ) : ℝ := r * 180 / Real.pi

/-- JS `Math.atan2` on real arguments. -/
noncomputable def atan2 (y x : ℝ) : ℝ :=
  if 0 < x then Real.arctan (y / x)
  else if x < 0 ∧ 0 ≤ y then Real.arctan (y / x) + Real.pi
  else if x < 0 ∧ y < 0 then Real.arctan (y / x) - Real.pi
  else if x = 0 ∧ 0 < y then Real.pi / 2
  else if x = 0 ∧ y < 0 then -(Real.pi / 2)
  else 0

/-- JS `Math.trunc`-style quotient used by the `%` operator. -/
noncomputable def jsTrunc (x : ℝ) : ℤ := if 0 ≤ x then ⌊x⌋ else -⌊-x⌋

/-- JS `%` on numbers: remainder with the sign of the dividend. -/
noncomputable def jsMod (x y : ℝ) : ℝ := x - y * (jsTrunc (x / y) : ℝ)

/-- The clamped dot product of the two unit vectors in `slerpLatLon`
(`x1*x2 + y1*y2 + z1*z2` through `clamp(dot, -1, 1)`). -/
noncomputable def slerpDot (lat1 lon1 lat2 lon2 : ℝ) : ℝ :=
  clamp
    (Real.cos (deg2rad lat1) * Real.cos (deg2rad lon1) *
        (Real.cos (deg2rad lat2) * Real.cos (deg2rad lon2)) +
      Real.cos (deg2rad lat1) * Real.sin (deg2rad lon1) *
        (Real.cos (deg2rad lat2) * Real.sin (deg2rad lon2)) +
      Real.sin (deg2rad lat1) * Real.sin (deg2rad lat2))
    (-1) 1

/-- The angle `ω = Math.acos(dot)` between the two unit vectors. -/
noncomputable def slerpOmega (lat1 lon1 lat2 lon2 : ℝ) : ℝ :=
  Real.arccos (slerpDot lat1 lon1 lat2 lon2)

/-- Source `slerpLatLon(lat1, lon1, lat2, lon2, f)`. -/
noncomputable def slerpLatLon (lat1 lon1 lat2 lon2 f : ℝ) : ℝ × ℝ :=
  if slerpOmega lat1 lon1 lat2 lon2 < 1e-10 then (lat1, lon1)
  else
    let w := slerpOmega lat1 lon1 lat2 lon2
    let sinw := Real.sin w
    let a := Real.sin ((1 - f) * w) / sinw
    let b := Real.sin (f * w) / sinw
    let x1 := Real.cos (deg2rad lat1) * Real.cos (deg2rad lon1)
    let y1 := Real.cos (deg2rad lat1) * Real.sin (deg2rad lon1)
    let z1 := Real.sin (deg2rad lat1)
    let x2 := Real.cos (deg2rad lat2) * Real.cos (deg2rad lon2)
    let y2 := Real.cos (deg2rad lat2) * Real.sin (deg2rad lon2)
    let z2 := Real.sin (deg2rad lat2)
    let x := a * x1 + b * x2
    let y := a * y1 + b * y2
    let z := a * z1 + b * z2
    (rad2deg (atan2 z (Real.sqrt (x * x + y * y))), rad2deg (atan2 y x))

/-- Dot product of a unit direction with itself is 1. -/
theorem dot_self_eq_one (a b : ℝ) :
    Real.cos a * Real.cos b * (Real.cos a * Real.cos b) +
      Real.cos a * Real.sin b * (Real.cos a * Real.sin b) +
      Real.sin a * Real.sin a = 1 := by
  linear_combination (Real.cos a * Real.cos a) * Real.sin_sq_add_cos_sq b +
    Real.sin_sq_add_cos_sq a

/-- C6: great-circle interpolation between a point and itself returns that
point unchanged for any fraction in `[0, 1]` (the `ω < 1e-10` branch). -/
theorem C6_slerp_identical_point (lat lon f : ℝ) (_hf0 : 0 ≤ f) (_hf1 : f ≤ 1) :
    slerpLatLon lat lon lat lon f = (lat, lon) := by
  have hdot : slerpDot lat lon lat lon = 1 := by
    unfold slerpDot clamp
    rw [dot_self_eq_one]
    norm_num
  have hw : slerpOmega lat lon lat lon = 0 := by
    unfold slerpOmega
    rw [hdot, Real.arccos_one]
  unfold slerpLatLon
  rw [hw, if_pos (by norm_num : (0 : ℝ) < 1e-10)]

/-- C6 witness: the identical-point property at a concrete point and
fraction. -/
theorem C6_slerp_identical_point_witness :
    (0 : ℝ) ≤ 1/2 ∧ (1/2 : ℝ) ≤ 1 ∧
      slerpLatLon 43 (-79) 43 (-79) (1/2) = (43, -79) :=
  ⟨by norm_num, by norm_num,
    C6_slerp_identical_point 43 (-79) (1/2) (by norm_num) (by norm_num)⟩

/-- Source `solarAltitudeDeg`, everything up to and including the cosine of
the solar zenith (the argument handed to `clamp`/`acos`); `msTime` is
`dateUTC.getTime()`. -/
noncomputable def solarCosZenith (msTime : ℤ) (latDeg lonDeg : ℝ) : ℝ :=
  let jd : ℝ := (msTime : ℝ) / 86400000 + 2440587.5
  let T := (jd - 2451545.0) / 36525.0
  let L0raw := 280.46646 + T * (36000.76983 + 0.0003032 * T)
  let L0 := jsMod (jsMod L0raw 360 + 360) 360
  let M := 357.52911 + T * (35999.05029 - 0.0001537 * T)
  let e := 0.016708634 - T * (0.000042037 + 0.0000001267 * T)
  let Mrad := deg2rad M
  let C := Real.sin Mrad * (1.914602 - T * (0.004817 + 0.000014 * T)) +
    Real.sin (2 * Mrad) * (0.019993 - 0.000101 * T) +
    Real.sin (3 * Mrad) * 0.000289
  let trueLong := L0 + C
  let Om := 125.04 - 1934.136 * T
  let lam := trueLong - 0.00569 - 0.00478 * Real.sin (deg2rad Om)
  let eps0 := 23 + (26 + (21.448 - T * (46.815 + T * (0.00059 - T * 0.001813))) / 60) / 60
  let eps := eps0 + 0.00256 * Real.cos (deg2rad Om)
  let delta := rad2deg (Real.arcsin (Real.sin (deg2rad eps) * Real.sin (deg2rad lam)))
  let y := Real.tan (deg2rad eps / 2)
  let y2 := y * y
  let L0rad := deg2rad L0
  let sin2L0 := Real.sin (2 * L0rad)
  let sinM := Real.sin Mrad
  let cos2L0 := Real.cos (2 * L0rad)
  let sin4L0 := Real.sin (4 * L0rad)
  let sin2M := Real.sin (2 * Mrad)
  let Etime := 4 * rad2deg (y2 * sin2L0 - 2 * e * sinM +
    4 * e * y2 * sinM * cos2L0 - 0.5 * y2 * y2 * sin4L0 - 1.25 * e * e * sin2M)
  let utcMinutes : ℝ := (getUTCHours msTime : ℝ) * 60 + (getUTCMinutes msTime : ℝ) +
    (getUTCSeconds msTime : ℝ) / 60
  let trueSolarTime := jsMod (utcMinutes + Etime + 4 * lonDeg) 1440
  let ha := if trueSolarTime / 4 < 0 then trueSolarTime / 4 + 180
    else trueSolarTime / 4 - 180
  let latRad := deg2rad latDeg
  let deltaRad := deg2rad delta
  let haRad := deg2rad ha
  Real.sin latRad * Real.sin deltaRad + Real.cos latRad * Real.cos deltaRad * Real.cos haRad

/-- Source `solarAltitudeDeg(dateUTC, latDeg, lonDeg)`:
`90 − rad2deg(acos(clamp(cosZenith, −1, 1)))`. -/
noncomputable def solarAltitudeDeg (msTime : ℤ) (latDeg lonDeg : ℝ) : ℝ :=
  90 - rad2deg (Real.arccos (clamp (solarCosZenith msTime latDeg lonDeg) (-1) 1))

/-- C9: the solar-altitude function is total; the clamped cosine-of-zenith
argument always lies in `[-1, 1]` (so `acos` never sees an out-of-domain
input) and the returned altitude always lies in `[-90, 90]` degrees. -/
theorem C9_solar_altitude_total_range (t : ℤ) (lat lon : ℝ) :
    (-1 ≤ clamp (solarCosZenith t lat lon) (-1) 1 ∧
      clamp (solarCosZenith t lat lon) (-1) 1 ≤ 1) ∧
    (-90 ≤ solarAltitudeDeg t lat lon ∧ solarAltitudeDeg t lat lon ≤ 90) := by
  constructor
  · constructor
    · exact le_max_left _ _
    · exact max_le (by norm_num) (min_le_left _ _)
  · have h0 := Real.arccos_nonneg (clamp (solarCosZenith t lat lon) (-1) 1)
    have h1 := Real.arccos_le_pi (clamp (solarCosZenith t lat lon) (-1) 1)
    have hpi := Real.pi_pos
    unfold solarAltitudeDeg rad2deg
    constructor
    · have : Real.arccos (clamp (solarCosZenith t lat lon) (-1) 1) * 180 / Real.pi ≤ 180 := by
        rw [div_le_iff₀ hpi]
        nlinarith
      linarith
    · have : 0 ≤ Real.arccos (clamp (solarCosZenith t lat lon) (-1) 1) * 180 / Real.pi := by
        apply div_nonneg (by linarith) (le_of_lt hpi)
      linarith

/-! ## Night/day classifier -/

/-- An entry of the read-only `AIRPORTS` coordinate table. -/
structure GeoPoint where
  lat : ℚ
  lon : ℚ
deriving DecidableEq, Repr

/-- JS `Math.round(q * 10) / 10` — the round-to-one-decimal the source applies
to night hours (and, shifted, to IMC time). -/
def jsRound10 (q : ℚ) : ℚ := (jsRound (q * 10) : ℚ) / 10

/-- Which branch `computeNightHours_BlockInterval` takes before sampling.
`invalidDates` is the JS Invalid-Date path: the duration is `NaN`, every
comparison is false, the loop body never runs and the function returns
`{ nightHours: 0, reason: "ok" }`. -/
inductive NightCase where
  | missingFields
  | missingCoords (code : String)
  | invalidDates
  | nonPositive
  | run (a b : GeoPoint) (tOut : ℤ) (totalMin : ℕ)
deriving DecidableEq, Repr

/-- The precondition/branch analysis of `computeNightHours_BlockInterval`
(field truthiness checks, coordinate lookups, `makeUtcDate`, duration). -/
def nightSetup (airports : String → Option GeoPoint) (p : Parsed) : NightCase :=
  match p.isoDate, p.orig, p.dest, p.times.out, p.times.inn with
  | some iso, some og, some ds, some _out, some _inn =>
    if iso = "" ∨ og = "" ∨ ds = "" then .missingFields
    else
      match airports og, airports ds with
      | some a, some b =>
        match makeUtcDate iso _out, makeUtcDate iso _inn with
        | some tOut, some tIn =>
          if diffMinutesWithMidnightWrap tOut tIn ≤ 0 then .nonPositive
          else .run a b tOut (diffMinutesWithMidnightWrap tOut tIn).toNat
        | _, _ => .invalidDates
      | none, _ => .missingCoords og
      | some _, none => .missingCoords ds
  | _, _, _, _, _ => .missingFields

/-- Solar altitude at sample minute `i` of the block interval: position
interpolated at `f = i/(totalMin−1)` (or 0 when `totalMin = 1`), instant
`tOut + i` minutes. -/
noncomputable def sampleAlt (a b : GeoPoint) (tOut : ℤ) (totalMin : ℕ) (i : ℕ) : ℝ :=
  let f : ℝ := if totalMin = 1 then 0 else (i : ℝ) / ((totalMin : ℝ) - 1)
  let pos := slerpLatLon (a.lat : ℝ) (a.lon : ℝ) (b.lat : ℝ) (b.lon : ℝ) f
  solarAltitudeDeg (tOut + (i : ℤ) * 60000) pos.1 pos.2

/-- The sampling loop: count of minutes `i < n` whose solar altitude lies
below the twilight threshold (`if (alt < twilightAltDeg) nightMin += 1`). -/
noncomputable def nightMinLoop (altAt : ℕ → ℝ) (thr : ℝ) : ℕ → ℕ
  | 0 => 0
  | n + 1 => nightMinLoop altAt thr n + (if altAt n < thr then 1 else 0)

/-- Source `computeNightHours_BlockInterval(parsed, twilightAltDeg)`;
result is the `{ nightHours, reason }` pair. -/
noncomputable def computeNightHours_BlockInterval
    (airports : String → Option GeoPoint) (p : Parsed) (thr : ℝ) :
    Option ℚ × String :=
  match nightSetup airports p with
  | .missingFields => (none, "Missing OUT/IN or route/date")
  | .missingCoords c => (none, "Missing airport coords for " ++ c)
  | .invalidDates => (some 0, "ok")
  | .nonPositive => (some 0, "Non-positive block minutes")
  | .run a b tOut n =>
    (some (jsRound10 ((nightMinLoop (sampleAlt a b tOut n) thr n : ℚ) / 60)), "ok")

/-- The loop tallies at most one minute per iteration. -/
theorem nightMinLoop_le (altAt : ℕ → ℝ) (thr : ℝ) :
    ∀ n, nightMinLoop altAt thr n ≤ n := by
  intro n
  induction n with
  | zero => simp [nightMinLoop]
  | succ k ih =>
    unfold nightMinLoop
    split <;> omega

/-- The loop tally is monotone in the threshold. -/
theorem nightMinLoop_mono (altAt : ℕ → ℝ) (t1 t2 : ℝ) (h : t1 ≤ t2) :
    ∀ n, nightMinLoop altAt t1 n ≤ nightMinLoop altAt t2 n := by
  intro n
  induction n with
  | zero => simp [nightMinLoop]
  | succ k ih =>
    unfold nightMinLoop
    have : (if altAt k < t1 then 1 else 0) ≤ (if altAt k < t2 then 1 else 0) := by
      split
      · rw [if_pos (by linarith)]
      · omega
    omega

/-- A `run` branch always has a positive sampled duration. -/
theorem nightSetup_run_pos (airports : String → Option GeoPoint) (p : Parsed)
    (a b : GeoPoint) (tOut : ℤ) (n : ℕ)
    (h : nightSetup airports p = .run a b tOut n) : 0 < n := by
  unfold nightSetup at h
  split at h
  · split at h
    · exact absurd h (by simp)
    · split at h
      · split at h
        · split at h
          · exact absurd h (by simp)
          · rename_i hpos
            injection h with h1 h2 h3 h4
            omega
        · exact absurd h (by simp)
      · exact absurd h (by simp)
      · exact absurd h (by simp)
  · exact absurd h (by simp)

/-- C7: holding airports, route endpoints and instants fixed, the tallied
night-minute count is monotonically non-decreasing in the twilight
threshold altitude. -/
theorem C7_night_count_monotone (a b : GeoPoint) (tOut : ℤ) (totalMin : ℕ)
    (t1 t2 : ℝ) (h : t1 ≤ t2) :
    nightMinLoop (sampleAlt a b tOut totalMin) t1 totalMin ≤
      nightMinLoop (sampleAlt a b tOut totalMin) t2 totalMin :=
  nightMinLoop_mono _ t1 t2 h totalMin

/-- C7 witness: thresholds −6 ≤ 0 at a concrete block interval. -/
theorem C7_night_count_monotone_witness :
    nightMinLoop (sampleAlt ⟨44, -80⟩ ⟨45, -76⟩ 136800000 90) (-6) 90 ≤
      nightMinLoop (sampleAlt ⟨44, -80⟩ ⟨45, -76⟩ 136800000 90) 0 90 :=
  C7_night_count_monotone ⟨44, -80⟩ ⟨45, -76⟩ 136800000 90 (-6) 0 (by norm_num)

/-- C8: every successful night computation with positive duration `n`
tallies an integer night-minute count in `[0, n]` and reports
`nightMinutes/60` rounded half-up to one decimal place. -/
theorem C8_night_result_bounds (airports : String → Option GeoPoint)
    (p : Parsed) (thr : ℝ) (a b : GeoPoint) (tOut : ℤ) (n : ℕ)
    (h : nightSetup airports p = .run a b tOut n) :
    0 < n ∧
    nightMinLoop (sampleAlt a b tOut n) thr n ≤ n ∧
    computeNightHours_BlockInterval airports p thr =
      (some (jsRound10 ((nightMinLoop (sampleAlt a b tOut n) thr n : ℚ) / 60)), "ok") ∧
    ∀ q : ℚ, jsRound10 q = ((⌊q * 10 + 1/2⌋ : ℤ) : ℚ) / 10 := by
  refine ⟨nightSetup_run_pos airports p a b tOut n h, nightMinLoop_le _ _ n, ?_, ?_⟩
  · simp [computeNightHours_BlockInterval, h]
  · intro q
    rfl

/-- Concrete airport table used by the witnesses and counterexamples. -/
def A0 : String → Option GeoPoint := fun c =>
  if c = "CYYZ" then some ⟨44, -80⟩
  else if c = "CYOW" then some ⟨45, -76⟩
  else none

/-- A parsed flight with all night-computation inputs present:
1970-01-02, CYYZ→CYOW, OUT 1400Z, IN 1530Z. -/
def P0 : Parsed :=
  { flightNumber := none, isoDate := some "1970-01-02", orig := some "CYYZ",
    dest := some "CYOW", route := some "CYYZ CYOW", tail := some "C-GABC",
    block := some (3/2), captain := none, fo := none,
    times := ⟨some ⟨14, 0⟩, some ⟨15, 30⟩, none, none⟩, comments := "" }

/-- C8 witness: the bounds and rounding shape at the concrete 90-minute
block CYYZ→CYOW. -/
theorem C8_night_result_bounds_witness :
    nightSetup A0 P0 = .run ⟨44, -80⟩ ⟨45, -76⟩ 136800000 90 ∧
    (0 < 90 ∧
      nightMinLoop (sampleAlt ⟨44, -80⟩ ⟨45, -76⟩ 136800000 90) (-6) 90 ≤ 90 ∧
      computeNightHours_BlockInterval A0 P0 (-6) =
        (some (jsRound10
          ((nightMinLoop (sampleAlt ⟨44, -80⟩ ⟨45, -76⟩ 136800000 90) (-6) 90 : ℚ) / 60)), "ok") ∧
      ∀ q : ℚ, jsRound10 q = ((⌊q * 10 + 1/2⌋ : ℤ) : ℚ) / 10) :=
  ⟨by decide, C8_night_result_bounds A0 P0 (-6) _ _ _ _ (by decide)⟩

/-- A parsed flight whose OUT and IN clocks coincide (duration 0). -/
def P1 : Parsed :=
  { flightNumber := none, isoDate := some "1970-01-05", orig := some "CYYZ",
    dest := some "CYOW", route := some "CYYZ CYOW", tail := some "C-GABC",
    block := some (3/2), captain := none, fo := none,
    times := ⟨some ⟨12, 0⟩, some ⟨12, 0⟩, none, none⟩, comments := "" }

/-- C4 counterexample: with all fields and coordinates present and OUT=IN
(duration 0), the night computation returns `nightHours = 0` with reason
"Non-positive block minutes" — not a null result as the claim states. -/
theorem C4_counterexample_zero_not_null :
    (computeNightHours_BlockInterval A0 P1 (-6)).1 ≠ none ∧
    computeNightHours_BlockInterval A0 P1 (-6) =
      (some 0, "Non-positive block minutes") := by
  have h : nightSetup A0 P1 = .nonPositive := by decide
  constructor <;> simp [computeNightHours_BlockInterval, h]

/-- C4 (amended): with date/origin/destination present, coordinates found,
valid clock times and OUT = IN, the computation returns `nightHours = 0`
with the diagnostic reason "Non-positive block minutes"; the degenerate
case is signalled by the reason string, not by a null night value. -/
theorem C4_amended_nonpositive_returns_zero
    (airports : String → Option GeoPoint) (p : Parsed) (thr : ℝ)
    (iso og ds : String) (hm : HHMM) (t : ℤ) (a b : GeoPoint)
    (hiso : p.isoDate = some iso) (hog : p.orig = some og)
    (hds : p.dest = some ds)
    (hout : p.times.out = some hm) (hinn : p.times.inn = some hm)
    (hne : ¬(iso = "" ∨ og = "" ∨ ds = ""))
    (ha : airports og = some a) (hb : airports ds = some b)
    (ht : makeUtcDate iso hm = some t) :
    computeNightHours_BlockInterval airports p thr =
      (some 0, "Non-positive block minutes") := by
  have hd : diffMinutesWithMidnightWrap t t = 0 := by
    simp [diffMinutesWithMidnightWrap]
  have hsetup : nightSetup airports p = .nonPositive := by
    simp [nightSetup, hiso, hog, hds, hout, hinn, hne, ha, hb, ht, hd]
  simp [computeNightHours_BlockInterval, hsetup]

/-- C4 amended witness: the property instantiated at the concrete OUT=IN
flight `P1`. -/
theorem C4_amended_nonpositive_returns_zero_witness :
    computeNightHours_BlockInterval A0 P1 (-6) =
      (some 0, "Non-positive block minutes") :=
  C4_amended_nonpositive_returns_zero A0 P1 (-6) "1970-01-05" "CYYZ" "CYOW"
    ⟨12, 0⟩ 388800000 ⟨44, -80⟩ ⟨45, -76⟩ rfl rfl rfl rfl rfl (by decide)
    (by decide) (by decide) (by decide)

/-! ## Landing day/night classification -/

/-- JS `times?.on || times?.in`: objects are truthy, so plain fallback. -/
def jsOrHHMM (a b : Option HHMM) : Option HHMM :=
  match a with
  | some x => some x
  | none => b

/-- The landing instant `tLand` of `computeLandingDayNight`: built from
date + landing clock, advanced one day (86400000 ms, `setUTCDate(+1)` in
UTC) when an OUT time exists and the landing minute-of-day is numerically
earlier than the OUT minute-of-day.  `none` is JS Invalid Date; an invalid
OUT makes `landMin < outMin` compare false against NaN, so no advance. -/
def landingInstant (iso : String) (landing : HHMM) (out : Option HHMM) :
    Option ℤ :=
  match makeUtcDate iso landing with
  | none => none
  | some tLand =>
    match out with
    | none => some tLand
    | some o =>
      match makeUtcDate iso o with
      | none => some tLand
      | some tOut =>
        if minuteOfDayUTC tLand < minuteOfDayUTC tOut then
          some (tLand + 86400000)
        else some tLand

/-- The `{ isNightLanding, reason, sunAltDeg }` record of
`computeLandingDayNight`. -/
structure LandingResult where
  isNightLanding : Option Bool
  reason : String
  sunAltDeg : Option ℝ

/-- Source `computeLandingDayNight(parsed, twilightAltDeg)`. -/
noncomputable def computeLandingDayNight
    (airports : String → Option GeoPoint) (p : Parsed) (thr : ℝ) :
    LandingResult :=
  match p.isoDate, p.dest with
  | some iso, some ds =>
    if iso = "" ∨ ds = "" then ⟨none, "Missing date/dest", none⟩
    else
      match airports ds with
      | none => ⟨none, "Missing airport coords for " ++ ds, none⟩
      | some destCoord =>
        match jsOrHHMM p.times.onn p.times.inn with
        | none => ⟨none, "Missing ON/IN time", none⟩
        | some landing =>
          match landingInstant iso landing p.times.out with
          | none => ⟨some false, "ok", none⟩
          | some tLand =>
            let alt := solarAltitudeDeg tLand (destCoord.lat : ℝ) (destCoord.lon : ℝ)
            ⟨some (if alt < thr then true else false), "ok", some alt⟩
  | _, _ => ⟨none, "Missing date/dest", none⟩

/-- C5: when the landing clock (ON, falling back to IN when ON is absent)
is numerically earlier than the OUT clock, the landing instant used for
classification lies one full day later than date+landing-clock, i.e. on
the next calendar day. -/
theorem C5_landing_midnight_rollover :
    (∀ (iso : String) (landing o : HHMM) (tL tO : ℤ),
      makeUtcDate iso landing = some tL →
      makeUtcDate iso o = some tO →
      minuteOfDayUTC tL < minuteOfDayUTC tO →
      landingInstant iso landing (some o) = some (tL + 86400000)) ∧
    (∀ b : Option HHMM, jsOrHHMM none b = b) ∧
    (∀ (x : HHMM) (b : Option HHMM), jsOrHHMM (some x) b = some x) := by
  refine ⟨?_, fun b => rfl, fun x b => rfl⟩
  intro iso landing o tL tO hL hO hlt
  simp [landingInstant, hL, hO, hlt]

/-- C5 witness: OUT=2350Z, landing clock 0010 on the nominal date
1970-01-01 classifies at the next day's 00:10 (600000 + 86400000 ms). -/
theorem C5_landing_midnight_rollover_witness :
    makeUtcDate "1970-01-01" ⟨0, 10⟩ = some 600000 ∧
    makeUtcDate "1970-01-01" ⟨23, 50⟩ = some 85800000 ∧
    minuteOfDayUTC 600000 < minuteOfDayUTC 85800000 ∧
    landingInstant "1970-01-01" ⟨0, 10⟩ (some ⟨23, 50⟩) = some (600000 + 86400000) :=
  ⟨by decide, by decide, by decide,
    C5_landing_midnight_rollover.1 "1970-01-01" ⟨0, 10⟩ ⟨23, 50⟩ 600000 85800000
      (by decide) (by decide) (by decide)⟩

/-! ## Logbook value derivation and `/ingest` validation -/

/-- The numeric/textual logbook fields `createPendingFlight` derives and
places into the submission payload. -/
structure DerivedValues where
  total : ℚ
  sic : ℚ
  pic : ℚ
  xc : ℚ
  imc : ℚ
  approaches : ℕ
  landings : ℕ
  night : ℚ
  fullStopDay : ℕ
  fullStopNight : ℕ
  pfTime : ℚ
  pmTime : ℚ
  picName : String
  sicName : String

/-- The pure computation of `createPendingFlight(parsed, pfMode)` (its own
validation plus the derived values; the SOAP/network step is outside the
core). -/
noncomputable def createPendingFlightComputed
    (airports : String → Option GeoPoint) (p : Parsed) (pfMode : Option String) :
    Except String DerivedValues :=
  if ¬ jsT p.isoDate then .error "Missing date"
  else if ¬ jsT p.tail then .error "Missing tail (aircraft)"
  else if ¬ jsT p.route then .error "Missing route"
  else if ¬ jsNumT p.block then .error "Missing block time"
  else
    let block := p.block.getD 0
    let nightRes := computeNightHours_BlockInterval airports p (-6)
    let landRes := computeLandingDayNight airports p (-6)
    let mode := if pfMode = some "PM" then "PM" else "PF"
    .ok {
      total := block, sic := block, pic := 0, xc := block,
      imc := max (jsRound10 (block - 1/10)) 0,
      approaches := 1, landings := 1,
      night := nightRes.1.getD 0,
      fullStopDay := if landRes.isNightLanding = some false then 1 else 0,
      fullStopNight := if landRes.isNightLanding = some true then 1 else 0,
      pfTime := if mode = "PF" then block else 0,
      pmTime := if mode = "PM" then block else 0,
      picName := p.captain.getD "", sicName := p.fo.getD "" }

/-- The `missing` list the `/ingest` handler builds, in push order; each
test is the JS truthiness test of the corresponding field (`!parsed.x`). -/
def ingestMissing (p : Parsed) : List String :=
  (if jsT p.isoDate then [] else ["date"]) ++
  (if jsT p.tail then [] else ["tail"]) ++
  (if jsT p.route then [] else ["route"]) ++
  (if jsNumT p.block then [] else ["block"]) ++
  (if jsT p.orig then [] else ["orig"]) ++
  (if jsT p.dest then [] else ["dest"]) ++
  (if p.times.out.isSome then [] else ["OUT"]) ++
  (if p.times.inn.isSome then [] else ["IN"])

/-- The possible responses of the `/ingest` handler. -/
inductive IngestOutcome where
  | missingRawText
  | parserMissingFields (missing : List String) (parsed : Parsed)
  | missingAirportCoords (codes : List String) (parsed : Parsed)
  | created (pfMode : String) (parsed : Parsed) (derived : DerivedValues)
  | serverError (msg : String)

/-- The `/ingest` handler after `parseOFP`: missing-field validation, then
airport-coordinate check, then derivation. -/
noncomputable def ingestValidate (airports : String → Option GeoPoint)
    (p : Parsed) (pfMode : Option String) : IngestOutcome :=
  if ingestMissing p ≠ [] then .parserMissingFields (ingestMissing p) p
  else
    -- the missing-field guard guarantees orig/dest are present and non-empty
    let og := p.orig.getD ""
    let ds := p.dest.getD ""
    if (airports og).isNone ∨ (airports ds).isNone then
      .missingAirportCoords (([og, ds]).filter fun c => (airports c).isNone) p
    else
      match createPendingFlightComputed airports p pfMode with
      | .ok d => .created (if pfMode = some "PM" then "PM" else "PF") p d
      | .error e => .serverError e

/-- The full `/ingest` handler (`raw_text` truthiness, then the above). -/
noncomputable def ingestHandler (airports : String → Option GeoPoint)
    (rawText : Option String) (pfMode : Option String) : IngestOutcome :=
  match rawText with
  | none => .missingRawText
  | some raw =>
    if raw = "" then .missingRawText
    else ingestValidate airports (parseOFP raw) pfMode

/-! Membership of each name in the handler's missing list. -/

theorem mem_missing_date (p : Parsed) (h : jsT p.isoDate = false) :
    "date" ∈ ingestMissing p := by
  simp [ingestMissing, h]

theorem mem_missing_tail (p : Parsed) (h : jsT p.tail = false) :
    "tail" ∈ ingestMissing p := by
  simp [ingestMissing, h]

theorem mem_missing_route (p : Parsed) (h : jsT p.route = false) :
    "route" ∈ ingestMissing p := by
  simp [ingestMissing, h]

theorem mem_missing_block (p : Parsed) (h : jsNumT p.block = false) :
    "block" ∈ ingestMissing p := by
  simp [ingestMissing, h]

theorem mem_missing_orig (p : Parsed) (h : jsT p.orig = false) :
    "orig" ∈ ingestMissing p := by
  simp [ingestMissing, h]

theorem mem_missing_dest (p : Parsed) (h : jsT p.dest = false) :
    "dest" ∈ ingestMissing p := by
  simp [ingestMissing, h]

theorem mem_missing_out (p : Parsed) (h : p.times.out = none) :
    "OUT" ∈ ingestMissing p := by
  simp [ingestMissing, h]

theorem mem_missing_inn (p : Parsed) (h : p.times.inn = none) :
    "IN" ∈ ingestMissing p := by
  simp [ingestMissing, h]

/-- C2: whenever any required field is absent on the parsed FlightFact, the
handler answers with the missing-field error carrying the missing list —
each absent field's name is in the list — and never reaches derivation
(no `created` outcome, hence no logbook values at all). -/
theorem C2_missing_fields_abort (airports : String → Option GeoPoint)
    (p : Parsed) (pf : Option String)
    (h : p.isoDate = none ∨ p.tail = none ∨ p.route = none ∨ p.block = none ∨
      p.orig = none ∨ p.dest = none ∨ p.times.out = none ∨ p.times.inn = none) :
    ingestValidate airports p pf = .parserMissingFields (ingestMissing p) p ∧
    (p.isoDate = none → "date" ∈ ingestMissing p) ∧
    (p.tail = none → "tail" ∈ ingestMissing p) ∧
    (p.route = none → "route" ∈ ingestMissing p) ∧
    (p.block = none → "block" ∈ ingestMissing p) ∧
    (p.orig = none → "orig" ∈ ingestMissing p) ∧
    (p.dest = none → "dest" ∈ ingestMissing p) ∧
    (p.times.out = none → "OUT" ∈ ingestMissing p) ∧
    (p.times.inn = none → "IN" ∈ ingestMissing p) ∧
    (∀ mode q d, ingestValidate airports p pf ≠ .created mode q d) := by
  have hne : ingestMissing p ≠ [] := by
    rcases h with h | h | h | h | h | h | h | h
    · exact List.ne_nil_of_mem (mem_missing_date p (by simp [jsT, h]))
    · exact List.ne_nil_of_mem (mem_missing_tail p (by simp [jsT, h]))
    · exact List.ne_nil_of_mem (mem_missing_route p (by simp [jsT, h]))
    · exact List.ne_nil_of_mem (mem_missing_block p (by simp [jsNumT, h]))
    · exact List.ne_nil_of_mem (mem_missing_orig p (by simp [jsT, h]))
    · exact List.ne_nil_of_mem (mem_missing_dest p (by simp [jsT, h]))
    · exact List.ne_nil_of_mem (mem_missing_out p h)
    · exact List.ne_nil_of_mem (mem_missing_inn p h)
  have heq : ingestValidate airports p pf = .parserMissingFields (ingestMissing p) p := by
    unfold ingestValidate
    rw [if_pos hne]
  refine ⟨heq, ?_, ?_, ?_, ?_, ?_, ?_, ?_, ?_, ?_⟩
  · intro hf; exact mem_missing_date p (by simp [jsT, hf])
  · intro hf; exact mem_missing_tail p (by simp [jsT, hf])
  · intro hf; exact mem_missing_route p (by simp [jsT, hf])
  · intro hf; exact mem_missing_block p (by simp [jsNumT, hf])
  · intro hf; exact mem_missing_orig p (by simp [jsT, hf])
  · intro hf; exact mem_missing_dest p (by simp [jsT, hf])
  · intro hf; exact mem_missing_out p hf
  · intro hf; exact mem_missing_inn p hf
  · intro mode q d hc
    rw [heq] at hc
    exact IngestOutcome.noConfusion hc

/-- A FlightFact with every field absent. -/
def P2 : Parsed :=
  { flightNumber := none, isoDate := none, orig := none, dest := none,
    route := none, tail := none, block := none, captain := none, fo := none,
    times := ⟨none, none, none, none⟩, comments := "" }

/-- C2 witness: the abort behavior at the all-absent FlightFact. -/
theorem C2_missing_fields_abort_witness :
    ingestValidate A0 P2 none = .parserMissingFields (ingestMissing P2) P2 ∧
    (P2.isoDate = none → "date" ∈ ingestMissing P2) ∧
    (P2.tail = none → "tail" ∈ ingestMissing P2) ∧
    (P2.route = none → "route" ∈ ingestMissing P2) ∧
    (P2.block = none → "block" ∈ ingestMissing P2) ∧
    (P2.orig = none → "orig" ∈ ingestMissing P2) ∧
    (P2.dest = none → "dest" ∈ ingestMissing P2) ∧
    (P2.times.out = none → "OUT" ∈ ingestMissing P2) ∧
    (P2.times.inn = none → "IN" ∈ ingestMissing P2) ∧
    (∀ mode q d, ingestValidate A0 P2 none ≠ .created mode q d) :=
  C2_missing_fields_abort A0 P2 none (Or.inl rfl)

/-- An OFP text whose BLOCK token carries the value 0 while every other
required field parses. -/
def T0 : String :=
  "DATE 01JAN24\nORIG CYYZ DEST CYOW\nC-GABC BLOCK 0\nOUT 1400Z IN 1530Z"

/-- C3 counterexample: on `T0` the extractor yields `blockHours = 0`
(present, not absent), yet the validation reports "block" among the
missing fields — refuting the claim that a present-and-zero block is not
reported missing. -/
theorem C3_counterexample_zero_block :
    (parseOFP T0).block = some 0 ∧ "block" ∈ ingestMissing (parseOFP T0) := by
  constructor
  · with_unfolding_all decide
  · with_unfolding_all decide

/-- C3 (amended): when the BLOCK pattern matches with numeric value 0, the
extracted `blockHours` is present (`some 0`), but the pre-derivation
validation — which tests JS truthiness, not presence — does report
"block" among the missing fields. -/
theorem C3_amended_zero_block_reported (raw s : String)
    (hcap : blockCapture raw = some s) (hne : s ≠ "") (h0 : numOf s = 0) :
    (parseOFP raw).block = some 0 ∧ "block" ∈ ingestMissing (parseOFP raw) := by
  have hb : (parseOFP raw).block = some 0 := by
    have hpb : (parseOFP raw).block = parsedBlock raw := rfl
    rw [hpb]
    unfold parsedBlock
    rw [hcap]
    simp [hne, h0]
  exact ⟨hb, mem_missing_block _ (by simp [jsNumT, hb])⟩

/-- C3 amended witness: the amended property instantiated at `T0`. -/
theorem C3_amended_zero_block_reported_witness :
    blockCapture T0 = some "0" ∧
    ((parseOFP T0).block = some 0 ∧ "block" ∈ ingestMissing (parseOFP T0)) :=
  ⟨by decide,
    C3_amended_zero_block_reported T0 "0" (by decide) (by decide)
      (by with_unfolding_all decide)⟩

/-! ## C10: accepted clock-time ranges -/

/-- A successful positional scan comes from the pattern succeeding at some
position. -/
theorem scanFrom_some {α : Type} (tryAt : Option Char → List Char → Option α) :
    ∀ (prev : Option Char) (s : List Char) (r : α),
      scanFrom tryAt prev s = some r → ∃ p' s', tryAt p' s' = some r := by
  intro prev s
  induction s generalizing prev with
  | nil => exact fun r h => ⟨prev, [], h⟩
  | cons c rest ih =>
    intro r h
    unfold scanFrom at h
    cases h1 : tryAt prev (c :: rest) with
    | some v =>
      rw [h1] at h
      simp at h
      exact ⟨prev, c :: rest, by rw [h1, h]⟩
    | none =>
      rw [h1] at h
      simp at h
      exact ih (some c) r h

/-- Any clock time `tryZuluAt` accepts has hour ≤ 29 and minute ≤ 59
(hour first digit class `[0-2]`, minute first digit class `[0-5]`). -/
theorem tryZuluAt_bounds (label : List Char) (prev : Option Char)
    (s : List Char) (r : HHMM) (h : tryZuluAt label prev s = some r) :
    r.hh ≤ 29 ∧ r.mm ≤ 59 := by
  unfold tryZuluAt at h
  split at h
  · split at h
    · exact absurd h (by simp)
    · split at h
      · exact absurd h (by simp)
      · split at h
        · split at h
          · split at h
            · rename_i h1 h2 m1 m2 rest hcls htail
              injection h with h'
              subst h'
              simp only [inRangeC, isDig, Bool.and_eq_true, decide_eq_true_eq] at hcls
              have e2 : ('2').toNat = 50 := rfl
              have e5 : ('5').toNat = 53 := rfl
              simp only [dval]
              omega
            · exact absurd h (by simp)
          · exact absurd h (by simp)
        · exact absurd h (by simp)
  · exact absurd h (by simp)

/-- C10: every extracted clock time has minute in `[0, 59]` but hour only
in `[0, 29]`; hours 24–29 are accepted, e.g. "OUT 2930Z" parses as 29:30. -/
theorem C10_zulu_hour_range :
    (∀ (text label : String) (h : HHMM),
      parseZuluHHMM text label = some h → h.mm ≤ 59 ∧ h.hh ≤ 29) ∧
    parseZuluHHMM "OUT 2930Z" "OUT" = some ⟨29, 30⟩ := by
  constructor
  · intro text label h hp
    obtain ⟨p', s', h'⟩ := scanFrom_some (tryZuluAt label.toList) none text.toList h hp
    have hb := tryZuluAt_bounds label.toList p' s' h h'
    exact ⟨hb.2, hb.1⟩
  · decide

/-- C10 witness: a parsed clock time satisfying the bounds. -/
theorem C10_zulu_hour_range_witness :
    parseZuluHHMM "OUT 0414Z" "OUT" = some ⟨4, 14⟩ ∧
    ((⟨4, 14⟩ : HHMM).mm ≤ 59 ∧ (⟨4, 14⟩ : HHMM).hh ≤ 29) :=
  ⟨by decide, C10_zulu_hour_range.1 "OUT 0414Z" "OUT" ⟨4, 14⟩ (by decide)⟩

end MfbIngest
